import Mathlib

/-!
Verification of the Hierarchical Data Rollup engine documented in this
repository (pattern "Hierarchical Data Rollup with SharePoint Lookup Fields").

The TypeScript snippets are embedded shallowly:
 - numbers become `ℚ` (exact rationals; `Math.round(x*100)/100` becomes `round2`,
   `Math.floor` becomes `Int.floor`),
 - JS objects `{ [k: string]: v }` become association lists,
 - `undefined`/`null` become `Option`,
 - the `async` fetch becomes a function of an explicit `FetchOutcome` describing
   what the record store did (ok payload, non-ok HTTP status, or a thrown error),
   returning `Except` so that a propagated exception is distinguishable from a
   normal return.
Apostrophe characters inside string literals are written with the `\x27` escape.
-/

/-- Interface for organization structure with SharePoint lookup field support
(`IOrganizationStructure`): `Title` is the organization name, `ParentOrg` the
optional parent organization title, `ParentOrgId` the optional lookup id. -/
structure IOrganizationStructure where
  Title : String
  ParentOrg : Option String
  ParentOrgId : Option Int := none
deriving DecidableEq

/-- `getChildOrganizations` from the rollup pattern: direct children (entries
whose `ParentOrg` equals the given parent) followed by, for each direct child,
its own direct children (grandchildren) — a fixed two-level traversal. -/
def getChildOrganizations (parentOrg : String)
    (orgStructure : List IOrganizationStructure) : List String :=
  let directChildren :=
    (orgStructure.filter (fun org => org.ParentOrg == some parentOrg)).map
      (fun org => org.Title)
  directChildren ++
    directChildren.flatMap (fun child =>
      (orgStructure.filter (fun org => org.ParentOrg == some child)).map
        (fun org => org.Title))

/-- `getRollupOrganizations`: the selected organization itself first, then —
when hierarchy data is present — its children and grandchildren. The module
state `organizationStructure` is passed explicitly. -/
def getRollupOrganizations (selectedOrg : String)
    (organizationStructure : List IOrganizationStructure) : List String :=
  let rollupOrgs := [selectedOrg]
  if organizationStructure.length > 0 then
    rollupOrgs ++ getChildOrganizations selectedOrg organizationStructure
  else
    rollupOrgs

/-- `getAllDescendants` (multi-level variation): recursion bounded by
`maxDepth`; reaching the bound returns `[]` (truncation), otherwise direct
children followed by the descendants of each child one level deeper. -/
def getAllDescendants (parentOrg : String)
    (orgStructure : List IOrganizationStructure)
    (maxDepth : Nat := 10) (currentDepth : Nat := 0) : List String :=
  if currentDepth ≥ maxDepth then
    []
  else
    let directChildren :=
      (orgStructure.filter (fun org => org.ParentOrg == some parentOrg)).map
        (fun org => org.Title)
    directChildren ++
      directChildren.flatMap (fun child =>
        getAllDescendants child orgStructure maxDepth (currentDepth + 1))
termination_by maxDepth - currentDepth
decreasing_by simp_wf; omega

/-- A self-referential two-unit hierarchy (unit A has parent B, unit B has
parent A): the cyclic input used to exercise the bounded traversal of the resolver. -/
def cycleOrgs : List IOrganizationStructure :=
  [{ Title := "A", ParentOrg := some "B" }, { Title := "B", ParentOrg := some "A" }]

/-- C4: the resolver output always has the root at position 0; an empty unit
list, or one with no entry whose parent reference names the root, yields
exactly `[root]` (single-unit degradation, no failure). -/
theorem getRollupOrganizations_root_and_degradation (root : String)
    (units : List IOrganizationStructure) :
    (getRollupOrganizations root units).head? = some root ∧
    (units = [] → getRollupOrganizations root units = [root]) ∧
    ((∀ u ∈ units, u.ParentOrg ≠ some root) →
      getRollupOrganizations root units = [root]) := by
  refine ⟨?_, ?_, ?_⟩
  · unfold getRollupOrganizations
    split <;> rfl
  · intro h
    subst h
    rfl
  · intro h
    unfold getRollupOrganizations
    split
    · have hfilter : units.filter (fun org => org.ParentOrg == some root) = [] := by
        rw [List.filter_eq_nil_iff]
        intro u hu
        simpa using h u hu
      simp [getChildOrganizations, hfilter]
    · rfl

/-- C4 witness: concrete instantiation — root `"HQ"` with a unit list none of
whose entries reference `"HQ"` as parent resolves to `["HQ"]` with `"HQ"` at
position 0. -/
theorem getRollupOrganizations_root_and_degradation_witness :
    (getRollupOrganizations "HQ"
        [{ Title := "X", ParentOrg := some "Y" }]).head? = some "HQ" ∧
    getRollupOrganizations "HQ"
        [{ Title := "X", ParentOrg := some "Y" }] = ["HQ"] := by
  have h := getRollupOrganizations_root_and_degradation "HQ"
    [{ Title := "X", ParentOrg := some "Y" }]
  exact ⟨h.1, h.2.2 (by decide)⟩

/-- C10: the resolver does not deduplicate — on the cyclic two-unit hierarchy
the rollup list for root `"A"` is `["A", "B", "A"]`, containing `"A"` twice
(once as root, once as a collected grandchild). -/
theorem getRollupOrganizations_no_dedup :
    getRollupOrganizations "A" cycleOrgs = ["A", "B", "A"] ∧
    (getRollupOrganizations "A" cycleOrgs).count "A" = 2 := by
  constructor <;> rfl

/-- An assessment record (`IAssessmentData`): the columns of the SharePoint item as
an association list from column name to the raw categorical value; a column
absent from the list models a field the item does not carry. -/
structure AssessmentRecord where
  fields : List (String × String)
deriving DecidableEq

/-- What the record store did when the Record Selector issued its bulk query:
an ok response carrying the item payload, a non-ok HTTP response, or a thrown
client/network error. -/
inductive FetchOutcome where
  | success (records : List AssessmentRecord)
  | httpError (status : Nat) (statusText : String)
  | thrown (message : String)
deriving DecidableEq

/-- The try-block of `fetchRollupAssessmentData`: an ok response yields the
payload, a non-ok response raises `new Error("HTTP status: statusText")`, and
a thrown client error raises that error. -/
def fetchAttempt (outcome : FetchOutcome) : Except String (List AssessmentRecord) :=
  match outcome with
  | .success records => Except.ok records
  | .httpError status statusText =>
      Except.error ("HTTP " ++ toString status ++ ": " ++ statusText)
  | .thrown message => Except.error message

/-- `fetchRollupAssessmentData`: returns `[]` immediately when the rollup list
is empty (or the client/site URL is unavailable); otherwise runs the bulk
query, and its catch-block handles any raised error by logging it and
returning `[]`. An `Except.error` result would model an exception propagating
out of the function. -/
def fetchRollupAssessmentData (rollupOrgs : List String)
    (outcome : FetchOutcome) : Except String (List AssessmentRecord) :=
  if rollupOrgs.length = 0 then
    Except.ok []
  else
    match fetchAttempt outcome with
    | Except.ok records => Except.ok records
    | Except.error _ => Except.ok []

/-- The filter expression composed by `fetchRollupAssessmentData`:
the map over `rollupOrgs` building one `Organization eq` clause per unit,
joined with ` or `; the unit name is interpolated as-is between single quotes,
with no escaping step. -/
def orgFilter (rollupOrgs : List String) : String :=
  String.intercalate " or "
    (rollupOrgs.map (fun org => "Organization eq \x27" ++ org ++ "\x27"))

/-- C1 counterexample: with a non-empty rollup list and the store answering
HTTP 500, `fetchRollupAssessmentData` returns the synthesized empty result
`Except.ok []` instead of propagating the failure as `Except.error`. -/
theorem fetchRollupAssessmentData_swallows_http_error :
    fetchRollupAssessmentData ["HR Department"]
      (FetchOutcome.httpError 500 "Internal Server Error") = Except.ok [] := by
  rfl

/-- C1 (amended): when the bulk query fails — a non-ok HTTP response or a
thrown client error — `fetchRollupAssessmentData` catches the failure and
returns the empty record list; no error ever propagates to the caller. -/
theorem fetchRollupAssessmentData_error_handling
    (rollupOrgs : List String) (outcome : FetchOutcome)
    (hfail : ∀ records, outcome ≠ FetchOutcome.success records) :
    fetchRollupAssessmentData rollupOrgs outcome = Except.ok [] := by
  unfold fetchRollupAssessmentData
  split
  · rfl
  · cases outcome with
    | success records => exact absurd rfl (hfail records)
    | httpError status statusText => rfl
    | thrown message => rfl

/-- C1 (amended) witness: concrete instantiation at a thrown network error. -/
theorem fetchRollupAssessmentData_error_handling_witness :
    fetchRollupAssessmentData ["HR Department", "Recruiting Team"]
      (FetchOutcome.thrown "network down") = Except.ok [] :=
  fetchRollupAssessmentData_error_handling
    ["HR Department", "Recruiting Team"] (FetchOutcome.thrown "network down")
    (fun _ h => FetchOutcome.noConfusion h)

/-- C2: evaluating the composed filter at the unit name "O\x27Reilly Division"
shows the apostrophe is not doubled: the output is
"Organization eq \x27O\x27Reilly Division\x27", which contains the raw name, does
not contain the escaped (doubled-apostrophe) form, and carries an odd number
(3) of apostrophe characters — a corrupted quoting structure. -/
theorem orgFilter_apostrophe_unescaped :
    orgFilter ["O\x27Reilly Division"] = "Organization eq \x27O\x27Reilly Division\x27" ∧
    (orgFilter ["O\x27Reilly Division"]).toList.count (Char.ofNat 39) = 3 ∧
    ¬ List.IsInfix "O\x27\x27Reilly Division".toList
        (orgFilter ["O\x27Reilly Division"]).toList := by
  refine ⟨rfl, by decide, by decide⟩

/-- The `levelMap` object literal of `getScoreFromAssessmentLevel`, as an
association list from level label to numeric score. -/
def levelMap : List (String × ℚ) :=
  [("Insufficient", 1), ("Beginning", 2), ("Developing", 3),
   ("Innovative", 4), ("Optimal", 5)]

/-- `getScoreFromAssessmentLevel`: `levelMap[level] || 1`. A missing key gives
`undefined` (here `none`) and a falsy hit (the score `0`, which never occurs
in the table) would also fall back to the default `1`. -/
def getScoreFromAssessmentLevel (level : String) : ℚ :=
  match levelMap.lookup level with
  | some n => if n = 0 then 1 else n
  | none => 1

/-- `getAssessmentLevelFromScore`: the asymmetric boundary table converting a
numeric score back to a level label. -/
def getAssessmentLevelFromScore (score : ℚ) : String :=
  if score ≥ 4.5 then "Optimal"
  else if score ≥ 3.5 then "Innovative"
  else if score ≥ 2.5 then "Developing"
  else if score ≥ 1.5 then "Beginning"
  else "Insufficient"

/-- `Math.round(x * 100) / 100` — rounding to 2 decimal places.
`Math.round(y)` is `⌊y + 1/2⌋` (round half toward positive infinity). -/
def round2 (x : ℚ) : ℚ :=
  ((Int.floor (x * 100 + 1 / 2) : ℤ) : ℚ) / 100

/-- One assessment question (`IAssessmentQuestion`): id, displayed level, and
numeric score. -/
structure IAssessmentQuestion where
  id : String
  level : String
  score : ℚ
deriving DecidableEq

/-- One assessment section (`IAssessmentSection`): its questions and the
computed `averageScore`. -/
structure IAssessmentSection where
  title : String
  questions : List IAssessmentQuestion
  averageScore : ℚ
deriving DecidableEq

/-- The check that an id mentions `-header` (indexOf is not -1): the id
contains the substring
`-header`. -/
def containsHeaderTag (s : String) : Bool :=
  decide ("-header".toList <:+: s.toList)

/-- The inline score-to-level chain inside `updateSectionsWithRollupAverages`
(a mutable default of `Developing` followed by an exhaustive if/else-if
chain; every branch assigns, so the initial default is dead). -/
def rollupDisplayLevel (avgScore : ℚ) : String :=
  if avgScore ≥ 4.5 then "Optimal"
  else if avgScore ≥ 3.5 then "Innovative"
  else if avgScore ≥ 2.5 then "Developing"
  else if avgScore ≥ 1.5 then "Beginning"
  else "Insufficient"

/-- `updateSectionsWithRollupAverages`: questions with a field average get the
converted level and the average as score; questions without data keep their
score only when they are `-header` pseudo-questions, otherwise it is zeroed;
the section average is the mean of non-header questions with positive score
(0 when there are none), rounded to 2 decimals. -/
def updateSectionsWithRollupAverages (currentSections : List IAssessmentSection)
    (fieldAverages : List (String × ℚ)) : List IAssessmentSection :=
  currentSections.map (fun sec =>
    let updatedQuestions : List IAssessmentQuestion :=
      sec.questions.map (fun question =>
      match fieldAverages.lookup question.id with
      | some avgScore =>
          { question with level := rollupDisplayLevel avgScore, score := avgScore }
      | none =>
          { question with
              score := if containsHeaderTag question.id then question.score else 0 })
    let actualQuestions : List IAssessmentQuestion := updatedQuestions.filter
      (fun q => !(containsHeaderTag q.id) && decide (q.score > 0))
    let sectionAverage : ℚ :=
      if actualQuestions.length > 0 then
        (actualQuestions.map (fun q => q.score)).sum / (actualQuestions.length : ℚ)
      else 0
    { sec with questions := updatedQuestions,
                   averageScore := round2 sectionAverage })

/-- `calculateOverallScores`: filters the section averages to the strictly
positive ones (the JS also filters `isNaN`; exact rationals have no NaN), then
returns the pair (overallAverage, overallScore) the component stores:
`(round2(mean), floor(mean))`, or `(0, 0)` when no section average is
positive. -/
def calculateOverallScores (sectionsData : List IAssessmentSection) : ℚ × ℤ :=
  let sectionAverages := (sectionsData.map (fun sec => sec.averageScore)).filter
    (fun avg => decide (avg > 0))
  if sectionAverages.length = 0 then (0, 0)
  else
    let totalAverage : ℚ := sectionAverages.sum / (sectionAverages.length : ℚ)
    (round2 totalAverage, Int.floor totalAverage)

/-- The inner loop of `loadRollupAssessmentData` collecting the values of one
field: for each record, a truthy (present, non-empty) raw value is converted
with `getScoreFromAssessmentLevel` and kept when positive. -/
def collectFieldValues (fieldName : String)
    (assessmentRecords : List AssessmentRecord) : List ℚ :=
  assessmentRecords.filterMap (fun record =>
    match record.fields.lookup fieldName with
    | some fieldValue =>
        if fieldValue ≠ "" then
          let numericValue := getScoreFromAssessmentLevel fieldValue
          if numericValue > 0 then some numericValue else none
        else none
    | none => none)

/-- The `fieldAverages` computation of `loadRollupAssessmentData`: for every
mapped question id whose SharePoint column name is truthy, the collected
values — when non-empty — contribute `round2(mean)`; otherwise no entry. -/
def calculateFieldAverages (fieldMappings : List (String × String))
    (assessmentRecords : List AssessmentRecord) : List (String × ℚ) :=
  fieldMappings.filterMap (fun qf =>
    if qf.2 ≠ "" then
      let values := collectFieldValues qf.2 assessmentRecords
      if values.length > 0 then
        some (qf.1, round2 (values.sum / (values.length : ℚ)))
      else none
    else none)

/-- Specification-side sample set for one field (used to compare against the
`collectFieldValues` of the code): the `levelToScore` value of every record that
has a non-absent (truthy) value for that field. -/
def fieldSampleScores (fieldName : String)
    (assessmentRecords : List AssessmentRecord) : List ℚ :=
  assessmentRecords.filterMap (fun record =>
    (record.fields.lookup fieldName).bind (fun v =>
      if v = "" then none else some (getScoreFromAssessmentLevel v)))

/-- On the five known labels the score table never yields 0, so the falsy
fallback of the lookup is only taken for unknown labels; every label maps to a
score of at least 1. Shared helper for the aggregation results. -/
lemma getScore_unknown (level : String)
    (h : level ∉ ["Insufficient", "Beginning", "Developing", "Innovative", "Optimal"]) :
    getScoreFromAssessmentLevel level = 1 := by
  simp only [List.mem_cons, List.not_mem_nil, or_false, not_or] at h
  obtain ⟨h1, h2, h3, h4, h5⟩ := h
  unfold getScoreFromAssessmentLevel
  rw [show levelMap.lookup level = none from by
    simp [levelMap, List.lookup, beq_false_of_ne h1, beq_false_of_ne h2,
      beq_false_of_ne h3, beq_false_of_ne h4, beq_false_of_ne h5]]

/-- Every categorical value, known or not, converts to a score of at least 1. -/
lemma one_le_getScore (level : String) :
    (1 : ℚ) ≤ getScoreFromAssessmentLevel level := by
  by_cases h : level ∈ ["Insufficient", "Beginning", "Developing", "Innovative", "Optimal"]
  · simp only [List.mem_cons, List.not_mem_nil, or_false] at h
    rcases h with rfl | rfl | rfl | rfl | rfl <;>
      simp [getScoreFromAssessmentLevel, levelMap, List.lookup]
  · rw [getScore_unknown level h]

/-- The positivity guard in the value-collection loop never rejects anything
(scores are always at least 1), so the collected values are exactly the sample
scores of the records with a truthy value for the field. -/
lemma collectFieldValues_eq (fieldName : String)
    (assessmentRecords : List AssessmentRecord) :
    collectFieldValues fieldName assessmentRecords =
      fieldSampleScores fieldName assessmentRecords := by
  unfold collectFieldValues fieldSampleScores
  congr 1
  funext record
  cases hl : record.fields.lookup fieldName with
  | none => rfl
  | some v =>
    by_cases hv : v = ""
    · subst hv; simp
    · have hpos : (0 : ℚ) < getScoreFromAssessmentLevel v :=
        lt_of_lt_of_le zero_lt_one (one_le_getScore v)
      simp [hv, hpos]

/-- C5: the score-to-level conversion follows the asymmetric boundary table
exactly (4.5/3.5/2.5/1.5, lower bound inclusive), the inline redisplay chain
in `updateSectionsWithRollupAverages` agrees with `getAssessmentLevelFromScore`
at every score, and 3.4 converts to Developing, not Innovative. -/
theorem scoreToLevel_boundary_table (score : ℚ) :
    (getAssessmentLevelFromScore score = "Optimal" ↔ 4.5 ≤ score) ∧
    (getAssessmentLevelFromScore score = "Innovative" ↔ 3.5 ≤ score ∧ score < 4.5) ∧
    (getAssessmentLevelFromScore score = "Developing" ↔ 2.5 ≤ score ∧ score < 3.5) ∧
    (getAssessmentLevelFromScore score = "Beginning" ↔ 1.5 ≤ score ∧ score < 2.5) ∧
    (getAssessmentLevelFromScore score = "Insufficient" ↔ score < 1.5) ∧
    rollupDisplayLevel score = getAssessmentLevelFromScore score ∧
    getAssessmentLevelFromScore (17 / 5) = "Developing" := by
  have hconc : getAssessmentLevelFromScore (17 / 5 : ℚ) = "Developing" := by
    unfold getAssessmentLevelFromScore
    norm_num
  refine ⟨?_, ?_, ?_, ?_, ?_, ?_, hconc⟩ <;>
    simp only [getAssessmentLevelFromScore, rollupDisplayLevel] <;>
    split_ifs with h1 h2 h3 h4 <;>
    push_neg at * <;>
    first
      | rfl
      | (constructor <;> intro h <;>
          first
            | rfl
            | linarith
            | (exact absurd h (by decide))
            | (exact ⟨by linarith, by linarith⟩))

/-- C7: the level-to-score conversion is an exact table lookup on the five
known labels, any label outside the enumeration maps to 1 (Insufficient)
without error, and such an unrecognized non-empty label encountered in a
fetched record contributes the score 1 to the aggregation sample. -/
theorem getScoreFromAssessmentLevel_table_and_default (level : String)
    (h : level ∉ ["Insufficient", "Beginning", "Developing", "Innovative", "Optimal"]) :
    getScoreFromAssessmentLevel level = 1 ∧
    getScoreFromAssessmentLevel "Insufficient" = 1 ∧
    getScoreFromAssessmentLevel "Beginning" = 2 ∧
    getScoreFromAssessmentLevel "Developing" = 3 ∧
    getScoreFromAssessmentLevel "Innovative" = 4 ∧
    getScoreFromAssessmentLevel "Optimal" = 5 ∧
    (level ≠ "" → collectFieldValues "SG_VS_KMVisionAligned"
      [{ fields := [("SG_VS_KMVisionAligned", level)] }] = [1]) := by
  have hu : getScoreFromAssessmentLevel level = 1 := getScore_unknown level h
  refine ⟨hu, by simp [getScoreFromAssessmentLevel, levelMap, List.lookup],
    by simp [getScoreFromAssessmentLevel, levelMap, List.lookup],
    by simp [getScoreFromAssessmentLevel, levelMap, List.lookup],
    by simp [getScoreFromAssessmentLevel, levelMap, List.lookup],
    by simp [getScoreFromAssessmentLevel, levelMap, List.lookup], ?_⟩
  intro hne
  simp [collectFieldValues, List.lookup, hne, hu]

/-- C7 witness: the unknown label Garbage maps to 1 and contributes a sample
score of 1 during aggregation. -/
theorem getScoreFromAssessmentLevel_table_and_default_witness :
    getScoreFromAssessmentLevel "Garbage" = 1 ∧
    collectFieldValues "SG_VS_KMVisionAligned"
      [{ fields := [("SG_VS_KMVisionAligned", "Garbage")] }] = [1] :=
  ⟨(getScoreFromAssessmentLevel_table_and_default "Garbage" (by decide)).1,
   (getScoreFromAssessmentLevel_table_and_default "Garbage"
      (by decide)).2.2.2.2.2.2 (by decide)⟩

/-- Specification-side list of the section averages strictly greater than 0,
used to state the overall-score results. -/
def positiveSectionAverages (sectionsData : List IAssessmentSection) : List ℚ :=
  (sectionsData.map (fun sec => sec.averageScore)).filter (fun avg => decide (0 < avg))

/-- C3 counterexample: for section averages 2.99 and 3.00 the mean is 2.995,
so the code reports average `round2(2.995) = 3` but flooredScore
`floor(2.995) = 2` — the floor is taken of the unrounded mean, and here it
differs from the floor of the already-rounded average (which would be 3). -/
theorem calculateOverallScores_floor_unrounded_cex :
    calculateOverallScores
        [{ title := "S1", questions := [], averageScore := 299 / 100 },
         { title := "S2", questions := [], averageScore := 3 }] = (3, 2) ∧
    (calculateOverallScores
        [{ title := "S1", questions := [], averageScore := 299 / 100 },
         { title := "S2", questions := [], averageScore := 3 }]).2 ≠
      Int.floor (calculateOverallScores
        [{ title := "S1", questions := [], averageScore := 299 / 100 },
         { title := "S2", questions := [], averageScore := 3 }]).1 := by
  have h : calculateOverallScores
      [{ title := "S1", questions := [], averageScore := 299 / 100 },
       { title := "S2", questions := [], averageScore := 3 }] = (3, 2) := by
    unfold calculateOverallScores round2
    norm_num [List.filter]
  refine ⟨h, ?_⟩
  rw [h]
  norm_num

/-- C3 (amended): the overall average is `round2` of the mean of the section
averages strictly greater than 0, and the floored score is the floor of that
unrounded mean (not of the rounded average); when no section average is
positive, both are 0. -/
theorem calculateOverallScores_rounding_policy (sectionsData : List IAssessmentSection) :
    (positiveSectionAverages sectionsData = [] →
      calculateOverallScores sectionsData = (0, 0)) ∧
    (positiveSectionAverages sectionsData ≠ [] →
      calculateOverallScores sectionsData =
        (round2 ((positiveSectionAverages sectionsData).sum /
          ((positiveSectionAverages sectionsData).length : ℚ)),
         Int.floor ((positiveSectionAverages sectionsData).sum /
          ((positiveSectionAverages sectionsData).length : ℚ)))) := by
  have hps : (sectionsData.map (fun sec => sec.averageScore)).filter
      (fun avg => decide (avg > 0)) = positiveSectionAverages sectionsData := rfl
  constructor
  · intro h
    simp [calculateOverallScores, hps, h]
  · intro h
    have hlen : (positiveSectionAverages sectionsData).length ≠ 0 := by
      simpa [List.length_eq_zero] using h
    simp [calculateOverallScores, hps, hlen]

/-- C3 (amended) witness: the zero case at the empty section list, and the
positive case at a single section of average 2. -/
theorem calculateOverallScores_rounding_policy_witness :
    calculateOverallScores ([] : List IAssessmentSection) = (0, 0) ∧
    calculateOverallScores [{ title := "S", questions := [], averageScore := 2 }] =
      (round2 ((positiveSectionAverages
          [{ title := "S", questions := [], averageScore := 2 }]).sum /
        ((positiveSectionAverages
          [{ title := "S", questions := [], averageScore := 2 }]).length : ℚ)),
       Int.floor ((positiveSectionAverages
          [{ title := "S", questions := [], averageScore := 2 }]).sum /
        ((positiveSectionAverages
          [{ title := "S", questions := [], averageScore := 2 }]).length : ℚ))) :=
  ⟨(calculateOverallScores_rounding_policy []).1 rfl,
   (calculateOverallScores_rounding_policy
      [{ title := "S", questions := [], averageScore := 2 }]).2
     (by norm_num [positiveSectionAverages, List.filter])⟩

/-- C6: the field-average table contains an entry for a mapped field exactly
when some record has a non-absent (truthy) value for it, and that entry is the
arithmetic mean of the per-record scores rounded to 2 decimals; fields with an
empty sample set are omitted, not zeroed. -/
theorem calculateFieldAverages_spec (fieldMappings : List (String × String))
    (assessmentRecords : List AssessmentRecord) :
    calculateFieldAverages fieldMappings assessmentRecords =
      fieldMappings.filterMap (fun qf =>
        if qf.2 ≠ "" ∧ fieldSampleScores qf.2 assessmentRecords ≠ [] then
          some (qf.1, round2 ((fieldSampleScores qf.2 assessmentRecords).sum /
            ((fieldSampleScores qf.2 assessmentRecords).length : ℚ)))
        else none) := by
  unfold calculateFieldAverages
  congr 1
  funext qf
  rw [collectFieldValues_eq]
  by_cases h1 : qf.2 = ""
  · simp [h1]
  · by_cases h2 : fieldSampleScores qf.2 assessmentRecords = []
    · simp [h1, h2]
    · have hlen : 0 < (fieldSampleScores qf.2 assessmentRecords).length :=
        List.length_pos.mpr h2
      simp [h1, h2, hlen]

/-- Flooring a rational never exceeds its 2-decimal rounding (round half up
cannot drop below the floor). Shared helper for the overall-score bound. -/
lemma floor_le_round2 (x : ℚ) : ((Int.floor x : ℤ) : ℚ) ≤ round2 x := by
  unfold round2
  rw [le_div_iff₀ (by norm_num : (0:ℚ) < 100)]
  have h : (100 * Int.floor x : ℤ) ≤ Int.floor (x * 100 + 1 / 2) := by
    apply Int.le_floor.mpr
    push_cast
    have hf : ((Int.floor x : ℤ) : ℚ) ≤ x := Int.floor_le x
    linarith
  have h2 : ((100 * Int.floor x : ℤ) : ℚ) ≤ ((Int.floor (x * 100 + 1 / 2) : ℤ) : ℚ) := by
    exact_mod_cast h
  push_cast at h2
  linarith

/-- C8: the floored overall score never exceeds the reported 2-decimal
average, for every input including the all-zero case where both are 0. -/
theorem overallScore_floored_le_average (sectionsData : List IAssessmentSection) :
    (((calculateOverallScores sectionsData).2 : ℤ) : ℚ) ≤
      (calculateOverallScores sectionsData).1 := by
  simp only [calculateOverallScores]
  split
  · norm_num
  · simpa using floor_le_round2 _

/-- C9: the two-level traversal collects only children and grandchildren of
the root; the generalized resolver returns nothing once the depth bound is
reached; and on the cyclic two-unit hierarchy the depth-10 run terminates with
a concrete finite result (alternating down the bounded chain). -/
theorem hierarchy_traversal_bounded (p t : String)
    (s : List IOrganizationStructure) (m c : Nat) :
    (m ≤ c → getAllDescendants p s m c = []) ∧
    (t ∈ getChildOrganizations p s →
      (∃ o ∈ s, o.Title = t ∧ o.ParentOrg = some p) ∨
      (∃ child, (∃ oc ∈ s, oc.Title = child ∧ oc.ParentOrg = some p) ∧
        (∃ o ∈ s, o.Title = t ∧ o.ParentOrg = some child))) ∧
    getAllDescendants "A" cycleOrgs 10 0 =
      ["B", "A", "B", "A", "B", "A", "B", "A", "B", "A"] := by
  refine ⟨?_, ?_, ?_⟩
  · intro h
    unfold getAllDescendants
    simp [h]
  · intro ht
    unfold getChildOrganizations at ht
    simp only [List.mem_append, List.mem_flatMap, List.mem_map, List.mem_filter,
      beq_iff_eq] at ht
    rcases ht with ⟨o, ⟨ho, hp⟩, rfl⟩ | ⟨child, hchild, o, ⟨ho, hp⟩, rfl⟩
    · exact Or.inl ⟨o, ho, rfl, hp⟩
    · rcases hchild with ⟨oc, ⟨hoc, hocp⟩, rfl⟩
      exact Or.inr ⟨oc.Title, ⟨oc, hoc, rfl, hocp⟩, ⟨o, ho, rfl, hp⟩⟩
  · simp [getAllDescendants, cycleOrgs]

/-- C9 witness: truncation at an exceeded bound, and a child of the cyclic
hierarchy really is reached through a one- or two-level parent chain. -/
theorem hierarchy_traversal_bounded_witness :
    getAllDescendants "X" [] 3 5 = [] ∧
    ((∃ o ∈ cycleOrgs, o.Title = "B" ∧ o.ParentOrg = some "A") ∨
     (∃ child, (∃ oc ∈ cycleOrgs, oc.Title = child ∧ oc.ParentOrg = some "A") ∧
       (∃ o ∈ cycleOrgs, o.Title = "B" ∧ o.ParentOrg = some child))) :=
  ⟨(hierarchy_traversal_bounded "X" "B" [] 3 5).1 (by decide),
   (hierarchy_traversal_bounded "A" "B" cycleOrgs 0 0).2.1 (by decide)⟩
